import Mathlib

/-
  Verification of src/src/get-caldav-report.c (libcaldav).

  The file shallowly embeds the four REPORT-based operations
  (caldav_getall, caldav_getrange, caldav_tasks_getall,
  caldav_tasks_getrange) together with the literal XML request bodies
  they send.  The libcurl transport, parse_caldav_report and
  get_caldav_datetime are defined outside this file; the transport
  outcome and the parser are passed in as explicit parameters, and
  get_caldav_datetime together with the redirect-following exchange is
  modelled from the specification (marked in the doc comments).
-/

namespace Caldav

/-- Broken-down UTC instant, the argument of the datetime formatter.
The C code stores a time value in the settings; its six UTC fields are
what the formatter renders. -/
structure DateTime where
  year : Nat
  month : Nat
  day : Nat
  hour : Nat
  minute : Nat
  second : Nat
deriving Repr, DecidableEq

/-- Numeric key giving the lexicographic order on the six fields,
used to state a start/end pair is ordered. -/
def DateTime.key (t : DateTime) : Nat :=
  ((((t.year * 100 + t.month) * 100 + t.day) * 100 + t.hour) * 100
      + t.minute) * 100 + t.second

/-- Order on instants: start is not after end. -/
def DateTime.le (a b : DateTime) : Prop := a.key ≤ b.key

instance (a b : DateTime) : Decidable (DateTime.le a b) := by
  unfold DateTime.le; infer_instance

/-- The fields of caldav_settings that the four report operations read
or write: the transient output area `file`, the query time range, and
the two debug flags. -/
structure caldav_settings where
  file : Option String
  start : DateTime
  end_ : DateTime
  debug : Bool
  trace_ascii : Bool
deriving Repr, DecidableEq

/-- The caldav_error record: signed code and human-readable message. -/
structure caldav_error where
  code : Int
  str : String
deriving Repr, DecidableEq

/-- Outcome of curl_easy_perform: either a transport failure carrying
the diagnostic written into error_buf, or a completed exchange carrying
the HTTP status (CURLINFO_RESPONSE_CODE), the accumulated response body
(chunk.memory) and the accumulated response headers (headers.memory). -/
inductive CurlResult where
  | failed (diag : String)
  | completed (status : Int) (rbody : String) (rheaders : String)
deriving Repr, DecidableEq

/-- The transport environment of one call: whether get_curl succeeds,
and the result the single curl_easy_perform would produce. -/
structure Transport where
  initOk : Bool
  result : CurlResult
deriving Repr, DecidableEq

/-- The request an operation hands to the transport: HTTP method
(CURLOPT_CUSTOMREQUEST), the header list (CURLOPT_HTTPHEADER), the body
(CURLOPT_POSTFIELDS), and the three redirect-related curl options the
code sets (CURLOPT_FOLLOWLOCATION, CURLOPT_UNRESTRICTED_AUTH,
CURLOPT_POSTREDIR = CURL_REDIR_POST_ALL). -/
structure HttpRequest where
  method : String
  headers : List String
  body : String
  followlocation : Bool
  unrestricted_auth : Bool
  postredir_all : Bool
deriving Repr, DecidableEq

/-- What one operation returns: the C return value (`ret` = TRUE means
error), the settings as left behind, the error record written into the
caller's caldav_error (`none` = untouched), and the request handed to
the transport (`none` = no request was issued). -/
structure OpResult where
  ret : Bool
  settings : caldav_settings
  error : Option caldav_error
  request : Option HttpRequest
deriving Repr, DecidableEq

/-- The static calendar query for fetching all events (getall_request). -/
def getall_request : String :=
"<?xml version=\"1.0\" encoding=\"utf-8\" ?><C:calendar-query xmlns:D=\"DAV:\"                 xmlns:C=\"urn:ietf:params:xml:ns:caldav\"> <D:prop>   <D:getetag/>   <C:calendar-data/> </D:prop> <C:filter>   <C:comp-filter name=\"VCALENDAR\">     <C:comp-filter name=\"VEVENT\"/>   </C:comp-filter> </C:filter></C:calendar-query>\r\n"

/-- First part of the range calendar query for events
(getrange_request_head); the time-range is added at runtime. -/
def getrange_request_head : String :=
"<?xml version=\"1.0\" encoding=\"utf-8\" ?><C:calendar-query xmlns:C=\"urn:ietf:params:xml:ns:caldav\"> <D:prop xmlns:D=\"DAV:\">   <C:calendar-data/> </D:prop> <C:filter>   <C:comp-filter name=\"VCALENDAR\">     <C:comp-filter name=\"VEVENT\">"

/-- Last part of the range calendar queries (getrange_request_foot). -/
def getrange_request_foot : String :=
"     </C:comp-filter>   </C:comp-filter> </C:filter></C:calendar-query>\r\n"

/-- The static calendar query for fetching all tasks
(getall_tasks_request). -/
def getall_tasks_request : String :=
"<?xml version=\"1.0\" encoding=\"utf-8\" ?><C:calendar-query xmlns:D=\"DAV:\"                 xmlns:C=\"urn:ietf:params:xml:ns:caldav\"> <D:prop>   <D:getetag/>   <C:calendar-data/> </D:prop> <C:filter>   <C:comp-filter name=\"VCALENDAR\">     <C:comp-filter name=\"VTODO\"/>   </C:comp-filter> </C:filter></C:calendar-query>\r\n"

/-- First part of the range calendar query for tasks
(getrange_tasks_request_head). -/
def getrange_tasks_request_head : String :=
"<?xml version=\"1.0\" encoding=\"utf-8\" ?><C:calendar-query xmlns:C=\"urn:ietf:params:xml:ns:caldav\"> <D:prop xmlns:D=\"DAV:\">   <C:calendar-data/> </D:prop> <C:filter>   <C:comp-filter name=\"VCALENDAR\">     <C:comp-filter name=\"VTODO\">"

/-- Character for decimal digit d. -/
def digitChar (d : Nat) : Char := Char.ofNat (48 + d)

/-- Fixed-width decimal rendering, least significant digit last,
zero-padded to width w (the printf %0wd convention of the format). -/
def padNum : Nat → Nat → List Char
  | 0, _ => []
  | w + 1, n => padNum w (n / 10) ++ [digitChar (n % 10)]

/-- Modelled from the spec: `get_caldav_datetime` is defined outside
this file (in the library's settings module, not under src/); per the
spec it renders the instant's UTC fields in basic ISO 8601 form
`YYYYMMDDTHHMMSSZ`. -/
def get_caldav_datetime (t : DateTime) : String :=
  String.mk (padNum 4 t.year ++ padNum 2 t.month ++ padNum 2 t.day
    ++ ['T'] ++ padNum 2 t.hour ++ padNum 2 t.minute ++ padNum 2 t.second
    ++ ['Z'])

/-- The five headers every report operation appends to its
curl_slist. -/
def http_header_list : List String :=
  ["Content-Type: application/xml; charset=\"utf-8\"",
   "Depth: 1",
   "Expect:",
   "Transfer-Encoding:",
   "Connection: close"]

/-- The request each report operation configures on the curl handle:
method REPORT, the five headers, the given body, and the redirect
options FOLLOWLOCATION, UNRESTRICTED_AUTH and POSTREDIR(POST_ALL). -/
def reportRequest (body : String) : HttpRequest :=
  { method := "REPORT"
    headers := http_header_list
    body := body
    followlocation := true
    unrestricted_auth := true
    postredir_all := true }

/-- The time-range element the range queries splice between head and
foot; exactly the printf pieces of
"%s\r\n<C:time-range start=\"%s\"\r\n end=\"%s\"/>\r\n%s". -/
def time_range_element (s e : DateTime) : String :=
  "\r\n<C:time-range start=\"" ++ get_caldav_datetime s
    ++ "\"\r\n end=\"" ++ get_caldav_datetime e ++ "\"/>\r\n"

/-- The body caldav_getrange builds at runtime. -/
def getrange_request_body (settings : caldav_settings) : String :=
  getrange_request_head
    ++ time_range_element settings.start settings.end_
    ++ getrange_request_foot

/-- The body caldav_tasks_getrange builds at runtime. -/
def getrange_tasks_request_body (settings : caldav_settings) : String :=
  getrange_tasks_request_head
    ++ time_range_element settings.start settings.end_
    ++ getrange_request_foot

/-- caldav_getall: send the static event query with REPORT; on
transport failure report code -1 with the curl diagnostic and clear
settings.file; on completion require status 207, otherwise report the
literal status with the accumulated headers as message; on 207 store
the parsed report into settings.file.  parse_caldav_report is defined
outside this file and passed in as `parse`. -/
def caldav_getall (parse : String → String → String → String)
    (t : Transport) (settings : caldav_settings) : OpResult :=
  if t.initOk = false then
    { ret := true
      settings := { settings with file := none }
      error := some { code := -1, str := "Could not initialize libcurl" }
      request := none }
  else
    let req := reportRequest getall_request
    match t.result with
    | CurlResult.failed diag =>
        { ret := true
          settings := { settings with file := none }
          error := some { code := -1, str := diag }
          request := some req }
    | CurlResult.completed status rbody rheaders =>
        if status ≠ 207 then
          { ret := true
            settings := settings
            error := some { code := status, str := rheaders }
            request := some req }
        else
          { ret := false
            settings :=
              { settings with
                  file := some (parse rbody "calendar-data" "VEVENT") }
            error := none
            request := some req }

/-- caldav_getrange: send the runtime-built event range query with
REPORT; on transport failure report code -1 and clear settings.file;
otherwise parse the body and store it into settings.file without
inspecting the HTTP status. -/
def caldav_getrange (parse : String → String → String → String)
    (t : Transport) (settings : caldav_settings) : OpResult :=
  if t.initOk = false then
    { ret := true
      settings := { settings with file := none }
      error := some { code := -1, str := "Could not initialize libcurl" }
      request := none }
  else
    let req := reportRequest (getrange_request_body settings)
    match t.result with
    | CurlResult.failed diag =>
        { ret := true
          settings := { settings with file := none }
          error := some { code := -1, str := diag }
          request := some req }
    | CurlResult.completed _status rbody _rheaders =>
        { ret := false
          settings :=
            { settings with
                file := some (parse rbody "calendar-data" "VEVENT") }
          error := none
          request := some req }

/-- caldav_tasks_getall: as caldav_getall with the VTODO query. -/
def caldav_tasks_getall (parse : String → String → String → String)
    (t : Transport) (settings : caldav_settings) : OpResult :=
  if t.initOk = false then
    { ret := true
      settings := { settings with file := none }
      error := some { code := -1, str := "Could not initialize libcurl" }
      request := none }
  else
    let req := reportRequest getall_tasks_request
    match t.result with
    | CurlResult.failed diag =>
        { ret := true
          settings := { settings with file := none }
          error := some { code := -1, str := diag }
          request := some req }
    | CurlResult.completed status rbody rheaders =>
        if status ≠ 207 then
          { ret := true
            settings := settings
            error := some { code := status, str := rheaders }
            request := some req }
        else
          { ret := false
            settings :=
              { settings with
                  file := some (parse rbody "calendar-data" "VTODO") }
            error := none
            request := some req }

/-- caldav_tasks_getrange: as caldav_getrange with the VTODO query. -/
def caldav_tasks_getrange (parse : String → String → String → String)
    (t : Transport) (settings : caldav_settings) : OpResult :=
  if t.initOk = false then
    { ret := true
      settings := { settings with file := none }
      error := some { code := -1, str := "Could not initialize libcurl" }
      request := none }
  else
    let req := reportRequest (getrange_tasks_request_body settings)
    match t.result with
    | CurlResult.failed diag =>
        { ret := true
          settings := { settings with file := none }
          error := some { code := -1, str := diag }
          request := some req }
    | CurlResult.completed _status rbody _rheaders =>
        { ret := false
          settings :=
            { settings with
                file := some (parse rbody "calendar-data" "VTODO") }
          error := none
          request := some req }

/-- Modelled from the spec: the redirect-following exchange performed
by libcurl under the options the code sets (get_curl and libcurl are
outside src/).  `server` maps (url, request, credentials-attached) to a
response; a 3xx answer with FOLLOWLOCATION set re-issues the request
against Location, keeping the method and body when POSTREDIR covers the
method and keeping the credentials when UNRESTRICTED_AUTH is set; a
bounded hop count is exhausted into a transport failure.  The returned
list records every request actually issued. -/
structure HttpResponse where
  status : Int
  location : String
  rbody : String
  rheaders : String
deriving Repr, DecidableEq

def redirect_exchange
    (server : String → HttpRequest → Bool → HttpResponse) :
    Nat → String → HttpRequest → Bool →
    List (String × HttpRequest × Bool) →
    Except String (HttpResponse × List (String × HttpRequest × Bool))
  | 0, _, _, _, _ => Except.error "maximum redirect count exhausted"
  | fuel + 1, url, req, auth, hops =>
    let resp := server url req auth
    let hops2 := hops ++ [(url, req, auth)]
    if (300 ≤ resp.status ∧ resp.status < 400) ∧ req.followlocation = true then
      redirect_exchange server fuel resp.location
        (if req.postredir_all then req
         else { req with method := "GET", body := "" })
        (auth && req.unrestricted_auth) hops2
    else
      Except.ok (resp, hops2)

/-- Count of the (possibly overlapping) occurrences of pat in l. -/
def countOccur : List Char → List Char → Nat
  | [], _ => 0
  | c :: rest, pat =>
      (if pat.isPrefixOf (c :: rest) then 1 else 0) + countOccur rest pat

/-- Occurrence count on strings. -/
def strCount (s pat : String) : Nat := countOccur s.data pat.data

/-- Sample parser: return the response body unchanged. -/
def parse0 : String → String → String → String := fun rbody _ _ => rbody

/-- Sample instants and settings for concrete evaluations. -/
def dt0 : DateTime := ⟨2010, 8, 28, 16, 34, 5⟩

def dt1 : DateTime := ⟨2010, 8, 29, 0, 0, 0⟩

def s0 : caldav_settings :=
  { file := some "stale", start := dt0, end_ := dt1,
    debug := false, trace_ascii := false }

/-- Transport where get_curl fails. -/
def tInitFail : Transport :=
  { initOk := false, result := CurlResult.failed "" }

/-- Transport where curl_easy_perform fails. -/
def tFail : Transport :=
  { initOk := true, result := CurlResult.failed "connection refused" }

/-- Transport completing with 207. -/
def tOk : Transport :=
  { initOk := true, result := CurlResult.completed 207 "RB" "RH" }

/-- Transport completing with 403. -/
def tBad : Transport :=
  { initOk := true, result := CurlResult.completed 403 "RB" "RH" }

/-- Server answering one 302 at the original url and 207 elsewhere. -/
def server0 : String → HttpRequest → Bool → HttpResponse :=
  fun url _ _ =>
    if url = "orig" then
      { status := 302, location := "next", rbody := "", rheaders := "" }
    else
      { status := 207, location := "", rbody := "", rheaders := "" }

/-- Server that always redirects. -/
def serverLoop : String → HttpRequest → Bool → HttpResponse :=
  fun _ _ _ =>
    { status := 302, location := "next", rbody := "", rheaders := "" }

/-- The event request as configured by caldav_getall. -/
def r0all : HttpRequest := reportRequest getall_request

/-- The task request as configured by caldav_tasks_getall. -/
def r0tasksall : HttpRequest := reportRequest getall_tasks_request

/-- The event range request as configured by caldav_getrange on s0. -/
def r0range : HttpRequest := reportRequest (getrange_request_body s0)

/-- The task range request as configured by caldav_tasks_getrange. -/
def r0taskrange : HttpRequest :=
  reportRequest (getrange_tasks_request_body s0)

theorem countOccur_cons (c : Char) (l pat : List Char) :
    countOccur (c :: l) pat
      = (if pat.isPrefixOf (c :: l) then 1 else 0) + countOccur l pat := rfl

theorem data_append (a b : String) : (a ++ b).data = a.data ++ b.data := rfl

/-- A prefix test cannot see past a nonempty block of characters none
of which occurs in the pattern. -/
theorem isPrefixOf_append_cutoff (pat : List Char) :
    ∀ (w ys zs : List Char), ys ≠ [] → (∀ c ∈ ys, c ∉ pat) →
    pat.isPrefixOf (w ++ (ys ++ zs)) = pat.isPrefixOf w := by
  induction pat with
  | nil => intro w ys zs _ _; simp [List.isPrefixOf]
  | cons p pt ih =>
    intro w ys zs hys hblock
    cases w with
    | nil =>
      cases ys with
      | nil => exact absurd rfl hys
      | cons y yt =>
        have hy : y ∉ p :: pt := hblock y (List.mem_cons_self y yt)
        have hpy : (p == y) = false := by
          apply beq_eq_false_iff_ne.mpr
          intro h
          exact hy (h ▸ List.mem_cons_self p pt)
        simp [List.isPrefixOf, hpy]
    | cons a wt =>
      have hblock' : ∀ c ∈ ys, c ∉ pt := by
        intro c hc hmem
        exact hblock c hc (List.mem_cons_of_mem p hmem)
      simp only [List.cons_append, List.isPrefixOf, List.append_eq]
      rw [ih wt ys zs hys hblock']

/-- A nonempty blocked run at the front contributes no occurrence. -/
theorem countOccur_skip (pat : List Char) (hpat : pat ≠ []) :
    ∀ (ys zs : List Char), (∀ c ∈ ys, c ∉ pat) →
    countOccur (ys ++ zs) pat = countOccur zs pat := by
  intro ys
  induction ys with
  | nil => intro zs _; rfl
  | cons y yt ih =>
    intro zs hblock
    rw [List.cons_append, countOccur_cons]
    have h1 : pat.isPrefixOf (y :: (yt ++ zs)) = false := by
      cases pat with
      | nil => exact absurd rfl hpat
      | cons p pt =>
        have hy : y ∉ p :: pt := hblock y (List.mem_cons_self y yt)
        have hpy : (p == y) = false := by
          apply beq_eq_false_iff_ne.mpr
          intro h
          exact hy (h ▸ List.mem_cons_self p pt)
        simp [List.isPrefixOf, hpy]
    rw [h1]
    simpa using ih zs (fun c hc => hblock c (List.mem_cons_of_mem y hc))

/-- Occurrence counting splits across a nonempty blocked block: no
occurrence can start in, end in, or span it. -/
theorem countOccur_append_blocked (pat : List Char) (hpat : pat ≠ [])
    (ys : List Char) (hys : ys ≠ []) (hblock : ∀ c ∈ ys, c ∉ pat) :
    ∀ (xs zs : List Char),
    countOccur (xs ++ (ys ++ zs)) pat
      = countOccur xs pat + countOccur zs pat := by
  intro xs
  induction xs with
  | nil =>
    intro zs
    show countOccur (ys ++ zs) pat = 0 + countOccur zs pat
    rw [Nat.zero_add]
    exact countOccur_skip pat hpat ys zs hblock
  | cons x xt ih =>
    intro zs
    rw [List.cons_append, countOccur_cons, countOccur_cons]
    have hcut := isPrefixOf_append_cutoff pat (x :: xt) ys zs hys hblock
    rw [List.cons_append] at hcut
    rw [hcut, ih zs]
    omega

/-- Splitting the count of the five-piece range body: the two encoded
instants e1 and e2 are nonempty and blocked for pat, so the count is
the sum over the three literal parts. -/
theorem countOccur_range_body (pat : List Char) (hpat : pat ≠ [])
    (h s1 e1 s2 e2 s3 f : List Char)
    (he1 : e1 ≠ []) (he2 : e2 ≠ [])
    (hb1 : ∀ c ∈ e1, c ∉ pat) (hb2 : ∀ c ∈ e2, c ∉ pat) :
    countOccur (h ++ (s1 ++ (e1 ++ (s2 ++ (e2 ++ (s3 ++ f)))))) pat
      = countOccur (h ++ s1) pat + countOccur s2 pat
          + countOccur (s3 ++ f) pat := by
  rw [← List.append_assoc h s1 (e1 ++ (s2 ++ (e2 ++ (s3 ++ f))))]
  rw [countOccur_append_blocked pat hpat e1 he1 hb1 (h ++ s1)
        (s2 ++ (e2 ++ (s3 ++ f)))]
  rw [countOccur_append_blocked pat hpat e2 he2 hb2 s2 (s3 ++ f)]
  omega

theorem padNum_mem (w : Nat) :
    ∀ (n : Nat), ∀ c ∈ padNum w n, ∃ d, d < 10 ∧ c = digitChar d := by
  induction w with
  | zero => intro n c hc; simp [padNum] at hc
  | succ w ih =>
    intro n c hc
    rw [padNum] at hc
    rcases List.mem_append.mp hc with h | h
    · exact ih (n / 10) c h
    · rcases List.mem_singleton.mp h with rfl
      exact ⟨n % 10, Nat.mod_lt n (by omega), rfl⟩

theorem get_caldav_datetime_mem (t : DateTime) :
    ∀ c ∈ (get_caldav_datetime t).data,
      c = 'T' ∨ c = 'Z' ∨ ∃ d, d < 10 ∧ c = digitChar d := by
  intro c hc
  simp only [get_caldav_datetime, List.mem_append, List.mem_singleton] at hc
  rcases hc with ((((((h | h) | h) | h) | h) | h) | h) | h
  · exact Or.inr (Or.inr (padNum_mem 4 t.year c h))
  · exact Or.inr (Or.inr (padNum_mem 2 t.month c h))
  · exact Or.inr (Or.inr (padNum_mem 2 t.day c h))
  · exact Or.inl h
  · exact Or.inr (Or.inr (padNum_mem 2 t.hour c h))
  · exact Or.inr (Or.inr (padNum_mem 2 t.minute c h))
  · exact Or.inr (Or.inr (padNum_mem 2 t.second c h))
  · exact Or.inr (Or.inl h)

/-- No character of an encoded instant occurs in a pattern free of
digits, T and Z. -/
theorem get_caldav_datetime_blocks (t : DateTime) (pat : List Char)
    (hT : 'T' ∉ pat) (hZ : 'Z' ∉ pat)
    (hd : ∀ d, d < 10 → digitChar d ∉ pat) :
    ∀ c ∈ (get_caldav_datetime t).data, c ∉ pat := by
  intro c hc
  rcases get_caldav_datetime_mem t c hc with rfl | rfl | ⟨d, hd10, rfl⟩
  · exact hT
  · exact hZ
  · exact hd d hd10

theorem get_caldav_datetime_ne_nil (t : DateTime) :
    (get_caldav_datetime t).data ≠ [] := by
  intro h
  have h2 := congrArg List.length h
  simp [get_caldav_datetime] at h2

/-- Occurrence count in a head ++ time-range ++ foot body reduces to
the counts over the three literal pieces whenever the pattern avoids
digits, T and Z: the two encoded instants can then take part in no
occurrence. -/
theorem strCount_range_body (hd ft : String) (a b : DateTime)
    (pat : String) (hpat : pat.data ≠ [])
    (hT : 'T' ∉ pat.data) (hZ : 'Z' ∉ pat.data)
    (hdig : ∀ d, d < 10 → digitChar d ∉ pat.data) :
    strCount (hd ++ time_range_element a b ++ ft) pat
      = countOccur (hd.data ++ "\r\n<C:time-range start=\"".data) pat.data
        + countOccur "\"\r\n end=\"".data pat.data
        + countOccur ("\"/>\r\n".data ++ ft.data) pat.data := by
  have hdecomp : (hd ++ time_range_element a b ++ ft).data
      = hd.data ++ ("\r\n<C:time-range start=\"".data
          ++ ((get_caldav_datetime a).data ++ ("\"\r\n end=\"".data
          ++ ((get_caldav_datetime b).data
          ++ ("\"/>\r\n".data ++ ft.data))))) := by
    simp [time_range_element, data_append, List.append_assoc]
  rw [strCount, hdecomp]
  exact countOccur_range_body pat.data hpat hd.data
      "\r\n<C:time-range start=\"".data (get_caldav_datetime a).data
      "\"\r\n end=\"".data (get_caldav_datetime b).data
      "\"/>\r\n".data ft.data
      (get_caldav_datetime_ne_nil a) (get_caldav_datetime_ne_nil b)
      (get_caldav_datetime_blocks a pat.data hT hZ hdig)
      (get_caldav_datetime_blocks b pat.data hT hZ hdig)

/-- Whatever request caldav_getall hands to the transport is the
REPORT request over the static event query. -/
theorem caldav_getall_request_eq
    (parse : String → String → String → String) (t : Transport)
    (s : caldav_settings) (r : HttpRequest)
    (h : (caldav_getall parse t s).request = some r) :
    r = reportRequest getall_request := by
  obtain ⟨i, r0⟩ := t
  cases i
  · simp [caldav_getall] at h
  · cases r0 with
    | failed d =>
      simp [caldav_getall] at h
      exact h.symm
    | completed st rb rh =>
      by_cases hst : st = 207 <;> simp [caldav_getall, hst] at h <;>
        exact h.symm

/-- Whatever request caldav_tasks_getall hands to the transport is the
REPORT request over the static task query. -/
theorem caldav_tasks_getall_request_eq
    (parse : String → String → String → String) (t : Transport)
    (s : caldav_settings) (r : HttpRequest)
    (h : (caldav_tasks_getall parse t s).request = some r) :
    r = reportRequest getall_tasks_request := by
  obtain ⟨i, r0⟩ := t
  cases i
  · simp [caldav_tasks_getall] at h
  · cases r0 with
    | failed d =>
      simp [caldav_tasks_getall] at h
      exact h.symm
    | completed st rb rh =>
      by_cases hst : st = 207 <;> simp [caldav_tasks_getall, hst] at h <;>
        exact h.symm

/-- Whatever request caldav_getrange hands to the transport is the
REPORT request over the runtime-built event range query. -/
theorem caldav_getrange_request_eq
    (parse : String → String → String → String) (t : Transport)
    (s : caldav_settings) (r : HttpRequest)
    (h : (caldav_getrange parse t s).request = some r) :
    r = reportRequest (getrange_request_body s) := by
  obtain ⟨i, r0⟩ := t
  cases i
  · simp [caldav_getrange] at h
  · cases r0 with
    | failed d =>
      simp [caldav_getrange] at h
      exact h.symm
    | completed st rb rh =>
      simp [caldav_getrange] at h
      exact h.symm

/-- Whatever request caldav_tasks_getrange hands to the transport is
the REPORT request over the runtime-built task range query. -/
theorem caldav_tasks_getrange_request_eq
    (parse : String → String → String → String) (t : Transport)
    (s : caldav_settings) (r : HttpRequest)
    (h : (caldav_tasks_getrange parse t s).request = some r) :
    r = reportRequest (getrange_tasks_request_body s) := by
  obtain ⟨i, r0⟩ := t
  cases i
  · simp [caldav_tasks_getrange] at h
  · cases r0 with
    | failed d =>
      simp [caldav_tasks_getrange] at h
      exact h.symm
    | completed st rb rh =>
      simp [caldav_tasks_getrange] at h
      exact h.symm

/-- C7: for every report operation, if curl_easy_perform returns a
nonzero result, the operation returns TRUE with error code -1 and the
transport diagnostic as message; no HTTP status enters the outcome. -/
theorem claim7_transport_failure
    (parse : String → String → String → String) (t : Transport)
    (s : caldav_settings) (diag : String)
    (hinit : t.initOk = true)
    (hres : t.result = CurlResult.failed diag) :
    ((caldav_getall parse t s).ret = true ∧
      (caldav_getall parse t s).error = some { code := -1, str := diag }) ∧
    ((caldav_getrange parse t s).ret = true ∧
      (caldav_getrange parse t s).error = some { code := -1, str := diag }) ∧
    ((caldav_tasks_getall parse t s).ret = true ∧
      (caldav_tasks_getall parse t s).error
        = some { code := -1, str := diag }) ∧
    ((caldav_tasks_getrange parse t s).ret = true ∧
      (caldav_tasks_getrange parse t s).error
        = some { code := -1, str := diag }) := by
  obtain ⟨i, r0⟩ := t
  dsimp only at hinit hres
  subst hinit
  subst hres
  simp [caldav_getall, caldav_getrange, caldav_tasks_getall,
        caldav_tasks_getrange]

theorem claim7_transport_failure_witness :
    ((caldav_getall parse0 tFail s0).ret = true ∧
      (caldav_getall parse0 tFail s0).error
        = some { code := -1, str := "connection refused" }) ∧
    ((caldav_getrange parse0 tFail s0).ret = true ∧
      (caldav_getrange parse0 tFail s0).error
        = some { code := -1, str := "connection refused" }) ∧
    ((caldav_tasks_getall parse0 tFail s0).ret = true ∧
      (caldav_tasks_getall parse0 tFail s0).error
        = some { code := -1, str := "connection refused" }) ∧
    ((caldav_tasks_getrange parse0 tFail s0).ret = true ∧
      (caldav_tasks_getrange parse0 tFail s0).error
        = some { code := -1, str := "connection refused" }) :=
  claim7_transport_failure parse0 tFail s0 "connection refused" rfl rfl

/-- C8: each report operation writes an error record exactly when it
returns TRUE, and leaves the caller's record untouched (modelled by
`none`) exactly when it returns FALSE. -/
theorem claim8_error_record_iff
    (parse : String → String → String → String) (t : Transport)
    (s : caldav_settings) :
    (caldav_getall parse t s).error.isSome = (caldav_getall parse t s).ret ∧
    (caldav_getrange parse t s).error.isSome
      = (caldav_getrange parse t s).ret ∧
    (caldav_tasks_getall parse t s).error.isSome
      = (caldav_tasks_getall parse t s).ret ∧
    (caldav_tasks_getrange parse t s).error.isSome
      = (caldav_tasks_getrange parse t s).ret := by
  obtain ⟨i, r0⟩ := t
  cases i <;> cases r0 with
  | failed d =>
    simp [caldav_getall, caldav_getrange, caldav_tasks_getall,
          caldav_tasks_getrange]
  | completed st rb rh =>
    by_cases hst : st = 207 <;>
      simp [caldav_getall, caldav_getrange, caldav_tasks_getall,
            caldav_tasks_getrange, hst]

/-- C9: when the transport completes, caldav_getrange and
caldav_tasks_getrange never inspect the HTTP status: for every status,
they parse the body, store the parsed text into settings.file, write no
error record and return FALSE. -/
theorem claim9_range_ignores_status
    (parse : String → String → String → String) (t : Transport)
    (s : caldav_settings) (status : Int) (rb rh : String)
    (hinit : t.initOk = true)
    (hres : t.result = CurlResult.completed status rb rh) :
    (caldav_getrange parse t s).ret = false ∧
    (caldav_getrange parse t s).error = none ∧
    (caldav_getrange parse t s).settings.file
      = some (parse rb "calendar-data" "VEVENT") ∧
    (caldav_tasks_getrange parse t s).ret = false ∧
    (caldav_tasks_getrange parse t s).error = none ∧
    (caldav_tasks_getrange parse t s).settings.file
      = some (parse rb "calendar-data" "VTODO") := by
  obtain ⟨i, r0⟩ := t
  dsimp only at hinit hres
  subst hinit
  subst hres
  simp [caldav_getrange, caldav_tasks_getrange]

theorem claim9_range_ignores_status_witness :
    (caldav_getrange parse0 tBad s0).ret = false ∧
    (caldav_getrange parse0 tBad s0).error = none ∧
    (caldav_getrange parse0 tBad s0).settings.file
      = some (parse0 "RB" "calendar-data" "VEVENT") ∧
    (caldav_tasks_getrange parse0 tBad s0).ret = false ∧
    (caldav_tasks_getrange parse0 tBad s0).error = none ∧
    (caldav_tasks_getrange parse0 tBad s0).settings.file
      = some (parse0 "RB" "calendar-data" "VTODO") :=
  claim9_range_ignores_status parse0 tBad s0 403 "RB" "RH" rfl rfl

/-- C10: when get_curl returns NULL, each report operation returns TRUE
with code -1 and the fixed message, clears settings.file to none, and
issues no request. -/
theorem claim10_curl_init_failure
    (parse : String → String → String → String) (t : Transport)
    (s : caldav_settings) (hinit : t.initOk = false) :
    ((caldav_getall parse t s).ret = true ∧
      (caldav_getall parse t s).error
        = some { code := -1, str := "Could not initialize libcurl" } ∧
      (caldav_getall parse t s).settings.file = none ∧
      (caldav_getall parse t s).request = none) ∧
    ((caldav_getrange parse t s).ret = true ∧
      (caldav_getrange parse t s).error
        = some { code := -1, str := "Could not initialize libcurl" } ∧
      (caldav_getrange parse t s).settings.file = none ∧
      (caldav_getrange parse t s).request = none) ∧
    ((caldav_tasks_getall parse t s).ret = true ∧
      (caldav_tasks_getall parse t s).error
        = some { code := -1, str := "Could not initialize libcurl" } ∧
      (caldav_tasks_getall parse t s).settings.file = none ∧
      (caldav_tasks_getall parse t s).request = none) ∧
    ((caldav_tasks_getrange parse t s).ret = true ∧
      (caldav_tasks_getrange parse t s).error
        = some { code := -1, str := "Could not initialize libcurl" } ∧
      (caldav_tasks_getrange parse t s).settings.file = none ∧
      (caldav_tasks_getrange parse t s).request = none) := by
  obtain ⟨i, r0⟩ := t
  dsimp only at hinit
  subst hinit
  simp [caldav_getall, caldav_getrange, caldav_tasks_getall,
        caldav_tasks_getrange]

theorem claim10_curl_init_failure_witness :
    ((caldav_getall parse0 tInitFail s0).ret = true ∧
      (caldav_getall parse0 tInitFail s0).error
        = some { code := -1, str := "Could not initialize libcurl" } ∧
      (caldav_getall parse0 tInitFail s0).settings.file = none ∧
      (caldav_getall parse0 tInitFail s0).request = none) ∧
    ((caldav_getrange parse0 tInitFail s0).ret = true ∧
      (caldav_getrange parse0 tInitFail s0).error
        = some { code := -1, str := "Could not initialize libcurl" } ∧
      (caldav_getrange parse0 tInitFail s0).settings.file = none ∧
      (caldav_getrange parse0 tInitFail s0).request = none) ∧
    ((caldav_tasks_getall parse0 tInitFail s0).ret = true ∧
      (caldav_tasks_getall parse0 tInitFail s0).error
        = some { code := -1, str := "Could not initialize libcurl" } ∧
      (caldav_tasks_getall parse0 tInitFail s0).settings.file = none ∧
      (caldav_tasks_getall parse0 tInitFail s0).request = none) ∧
    ((caldav_tasks_getrange parse0 tInitFail s0).ret = true ∧
      (caldav_tasks_getrange parse0 tInitFail s0).error
        = some { code := -1, str := "Could not initialize libcurl" } ∧
      (caldav_tasks_getrange parse0 tInitFail s0).settings.file = none ∧
      (caldav_tasks_getrange parse0 tInitFail s0).request = none) :=
  claim10_curl_init_failure parse0 tInitFail s0 rfl

/-- C1 fails as stated: caldav_getrange is a REPORT-based operation
whose transport exchange completes with HTTP status 500, yet it returns
success (FALSE) although 500 is not 207. -/
theorem claim1_counterexample :
    (caldav_getrange parse0
        { initOk := true, result := CurlResult.completed 500 "B" "H" }
        s0).ret = false
      ∧ ((500 : Int) = 207 → False) := by
  exact ⟨rfl, by decide⟩

/-- C1 (amended): when the transport exchange completes, caldav_getall
and caldav_tasks_getall succeed exactly when the HTTP status is 207,
and on any other status fail with the literal status as code and the
accumulated response headers block as message; caldav_getrange and
caldav_tasks_getrange do not inspect the status and succeed on every
completed exchange. -/
theorem claim1_report_status_amended
    (parse : String → String → String → String) (t : Transport)
    (s : caldav_settings) (status : Int) (rb rh : String)
    (hinit : t.initOk = true)
    (hres : t.result = CurlResult.completed status rb rh) :
    ((caldav_getall parse t s).ret = false ↔ status = 207) ∧
    ((caldav_tasks_getall parse t s).ret = false ↔ status = 207) ∧
    (status ≠ 207 →
      (caldav_getall parse t s).error
          = some { code := status, str := rh } ∧
      (caldav_tasks_getall parse t s).error
          = some { code := status, str := rh }) ∧
    (caldav_getrange parse t s).ret = false ∧
    (caldav_tasks_getrange parse t s).ret = false := by
  obtain ⟨i, r0⟩ := t
  dsimp only at hinit hres
  subst hinit
  subst hres
  by_cases hst : status = 207 <;>
    simp [caldav_getall, caldav_tasks_getall, caldav_getrange,
          caldav_tasks_getrange, hst]

theorem claim1_report_status_amended_witness :
    ((caldav_getall parse0 tBad s0).ret = false ↔ (403 : Int) = 207) ∧
    ((caldav_tasks_getall parse0 tBad s0).ret = false
        ↔ (403 : Int) = 207) ∧
    ((403 : Int) ≠ 207 →
      (caldav_getall parse0 tBad s0).error
          = some { code := 403, str := "RH" } ∧
      (caldav_tasks_getall parse0 tBad s0).error
          = some { code := 403, str := "RH" }) ∧
    (caldav_getrange parse0 tBad s0).ret = false ∧
    (caldav_tasks_getrange parse0 tBad s0).ret = false :=
  claim1_report_status_amended parse0 tBad s0 403 "RB" "RH" rfl rfl

/-- C2 fails as stated: caldav_getall fails (returns TRUE) on a
completed exchange with status 403 yet leaves settings.file holding its
previous value rather than clearing it to none. -/
theorem claim2_counterexample :
    (caldav_getall parse0 tBad s0).ret = true
      ∧ (caldav_getall parse0 tBad s0).settings.file = some "stale" := by
  exact ⟨rfl, rfl⟩

/-- C2 (amended): every report operation clears settings.file to none
on the curl-initialization-failure path and on the transport-failure
path; on the non-207 HTTP-status failure path of caldav_getall and
caldav_tasks_getall the operation fails but settings.file is left
exactly as it was. -/
theorem claim2_file_cleanup_amended
    (parse : String → String → String → String) (t : Transport)
    (s : caldav_settings) :
    (t.initOk = false →
      (caldav_getall parse t s).settings.file = none ∧
      (caldav_getrange parse t s).settings.file = none ∧
      (caldav_tasks_getall parse t s).settings.file = none ∧
      (caldav_tasks_getrange parse t s).settings.file = none) ∧
    (∀ diag, t.initOk = true → t.result = CurlResult.failed diag →
      (caldav_getall parse t s).settings.file = none ∧
      (caldav_getrange parse t s).settings.file = none ∧
      (caldav_tasks_getall parse t s).settings.file = none ∧
      (caldav_tasks_getrange parse t s).settings.file = none) ∧
    (∀ status rb rh, t.initOk = true →
      t.result = CurlResult.completed status rb rh → status ≠ 207 →
      (caldav_getall parse t s).ret = true ∧
      (caldav_getall parse t s).settings.file = s.file ∧
      (caldav_tasks_getall parse t s).ret = true ∧
      (caldav_tasks_getall parse t s).settings.file = s.file) := by
  obtain ⟨i, r0⟩ := t
  refine ⟨fun hinit => ?_, fun diag hinit hres => ?_,
          fun status rb rh hinit hres hst => ?_⟩
  · dsimp only at hinit
    subst hinit
    simp [caldav_getall, caldav_getrange, caldav_tasks_getall,
          caldav_tasks_getrange]
  · dsimp only at hinit hres
    subst hinit
    subst hres
    simp [caldav_getall, caldav_getrange, caldav_tasks_getall,
          caldav_tasks_getrange]
  · dsimp only at hinit hres
    subst hinit
    subst hres
    simp [caldav_getall, caldav_tasks_getall, hst]

theorem claim2_file_cleanup_amended_witness :
    (caldav_getall parse0 tFail s0).settings.file = none ∧
    (caldav_getall parse0 tBad s0).settings.file = s0.file :=
  ⟨((claim2_file_cleanup_amended parse0 tFail s0).2.1
      "connection refused" rfl rfl).1,
   ((claim2_file_cleanup_amended parse0 tBad s0).2.2
      403 "RB" "RH" rfl rfl (by decide)).2.1⟩

set_option maxRecDepth 100000

/-- C5: every calendar-query request issued by the four report
operations uses the HTTP method REPORT and carries exactly the header
set Content-Type: application/xml; charset=utf-8, Depth: 1, an emptied
Expect header, an emptied Transfer-Encoding header and Connection:
close. -/
theorem claim5_report_headers
    (parse : String → String → String → String) (t : Transport)
    (s : caldav_settings) (r : HttpRequest)
    (hr : (caldav_getall parse t s).request = some r ∨
          (caldav_getrange parse t s).request = some r ∨
          (caldav_tasks_getall parse t s).request = some r ∨
          (caldav_tasks_getrange parse t s).request = some r) :
    r.method = "REPORT" ∧
    r.headers =
      ["Content-Type: application/xml; charset=\"utf-8\"",
       "Depth: 1",
       "Expect:",
       "Transfer-Encoding:",
       "Connection: close"] := by
  rcases hr with h | h | h | h
  · rw [caldav_getall_request_eq parse t s r h]
    exact ⟨rfl, rfl⟩
  · rw [caldav_getrange_request_eq parse t s r h]
    exact ⟨rfl, rfl⟩
  · rw [caldav_tasks_getall_request_eq parse t s r h]
    exact ⟨rfl, rfl⟩
  · rw [caldav_tasks_getrange_request_eq parse t s r h]
    exact ⟨rfl, rfl⟩

theorem claim5_report_headers_witness :
    r0all.method = "REPORT" ∧
    r0all.headers =
      ["Content-Type: application/xml; charset=\"utf-8\"",
       "Depth: 1",
       "Expect:",
       "Transfer-Encoding:",
       "Connection: close"] :=
  claim5_report_headers parse0 tOk s0 r0all (Or.inl rfl)

/-- C4: caldav_getall and caldav_tasks_getall always send the fixed
static calendar-query bodies, whatever the settings and transport; each
body requests getetag and calendar-data, filters on VCALENDAR with
exactly one inner comp-filter naming VEVENT resp. VTODO, and contains
no time-range. -/
theorem claim4_getall_request_static
    (parse : String → String → String → String) (t : Transport)
    (s : caldav_settings) (r : HttpRequest) :
    ((caldav_getall parse t s).request = some r →
        r.body = getall_request) ∧
    ((caldav_tasks_getall parse t s).request = some r →
        r.body = getall_tasks_request) ∧
    strCount getall_request "<D:getetag/>" = 1 ∧
    strCount getall_request "<C:calendar-data/>" = 1 ∧
    strCount getall_request "<C:comp-filter" = 2 ∧
    strCount getall_request "<C:comp-filter name=\"VCALENDAR\">" = 1 ∧
    strCount getall_request "<C:comp-filter name=\"VEVENT\"/>" = 1 ∧
    strCount getall_request "time-range" = 0 ∧
    strCount getall_tasks_request "<D:getetag/>" = 1 ∧
    strCount getall_tasks_request "<C:calendar-data/>" = 1 ∧
    strCount getall_tasks_request "<C:comp-filter" = 2 ∧
    strCount getall_tasks_request "<C:comp-filter name=\"VCALENDAR\">" = 1 ∧
    strCount getall_tasks_request "<C:comp-filter name=\"VTODO\"/>" = 1 ∧
    strCount getall_tasks_request "time-range" = 0 := by
  refine ⟨fun h => ?_, fun h => ?_, by decide, by decide, by decide,
          by decide, by decide, by decide, by decide, by decide,
          by decide, by decide, by decide, by decide⟩
  · rw [caldav_getall_request_eq parse t s r h]
    rfl
  · rw [caldav_tasks_getall_request_eq parse t s r h]
    rfl

theorem claim4_getall_request_static_witness :
    r0all.body = getall_request ∧
    r0tasksall.body = getall_tasks_request :=
  ⟨(claim4_getall_request_static parse0 tOk s0 r0all).1 rfl,
   (claim4_getall_request_static parse0 tOk s0 r0tasksall).2.1 rfl⟩

/-- C3: for every ordered start/end pair, caldav_getrange and
caldav_tasks_getrange send the runtime-built bodies; each such body
requests calendar-data and no getetag, contains exactly one time-range
element, that element carries as its start and end attributes precisely
the UTC basic-format encodings of settings.start and settings.end_, and
it stands between the opening comp-filter tag for VEVENT resp. VTODO
(ending the head) and its closing tag (opening the foot). -/
theorem claim3_range_request_body
    (parse : String → String → String → String) (t : Transport)
    (s : caldav_settings) (r : HttpRequest)
    (hle : DateTime.le s.start s.end_) :
    ((caldav_getrange parse t s).request = some r →
        r.body = getrange_request_body s) ∧
    ((caldav_tasks_getrange parse t s).request = some r →
        r.body = getrange_tasks_request_body s) ∧
    getrange_request_body s
      = getrange_request_head
          ++ ("\r\n<C:time-range start=\"" ++ get_caldav_datetime s.start
              ++ "\"\r\n end=\"" ++ get_caldav_datetime s.end_
              ++ "\"/>\r\n")
          ++ getrange_request_foot ∧
    getrange_tasks_request_body s
      = getrange_tasks_request_head
          ++ ("\r\n<C:time-range start=\"" ++ get_caldav_datetime s.start
              ++ "\"\r\n end=\"" ++ get_caldav_datetime s.end_
              ++ "\"/>\r\n")
          ++ getrange_request_foot ∧
    strCount (getrange_request_body s) "<C:time-range" = 1 ∧
    strCount (getrange_request_body s) "getetag" = 0 ∧
    strCount (getrange_request_body s) "<C:calendar-data/>" = 1 ∧
    strCount (getrange_tasks_request_body s) "<C:time-range" = 1 ∧
    strCount (getrange_tasks_request_body s) "getetag" = 0 ∧
    strCount (getrange_tasks_request_body s) "<C:calendar-data/>" = 1 ∧
    List.isSuffixOf "<C:comp-filter name=\"VEVENT\">".data
        getrange_request_head.data = true ∧
    List.isSuffixOf "<C:comp-filter name=\"VTODO\">".data
        getrange_tasks_request_head.data = true ∧
    List.isPrefixOf "     </C:comp-filter>".data
        getrange_request_foot.data = true := by
  refine ⟨fun h => ?_, fun h => ?_, rfl, rfl, ?_, ?_, ?_, ?_, ?_, ?_,
          by decide, by decide, by decide⟩
  · rw [caldav_getrange_request_eq parse t s r h]
    rfl
  · rw [caldav_tasks_getrange_request_eq parse t s r h]
    rfl
  · show strCount (getrange_request_head
        ++ time_range_element s.start s.end_
        ++ getrange_request_foot) "<C:time-range" = 1
    rw [strCount_range_body getrange_request_head getrange_request_foot
          s.start s.end_ "<C:time-range" (by decide) (by decide)
          (by decide) (by decide)]
    decide
  · show strCount (getrange_request_head
        ++ time_range_element s.start s.end_
        ++ getrange_request_foot) "getetag" = 0
    rw [strCount_range_body getrange_request_head getrange_request_foot
          s.start s.end_ "getetag" (by decide) (by decide)
          (by decide) (by decide)]
    decide
  · show strCount (getrange_request_head
        ++ time_range_element s.start s.end_
        ++ getrange_request_foot) "<C:calendar-data/>" = 1
    rw [strCount_range_body getrange_request_head getrange_request_foot
          s.start s.end_ "<C:calendar-data/>" (by decide) (by decide)
          (by decide) (by decide)]
    decide
  · show strCount (getrange_tasks_request_head
        ++ time_range_element s.start s.end_
        ++ getrange_request_foot) "<C:time-range" = 1
    rw [strCount_range_body getrange_tasks_request_head
          getrange_request_foot s.start s.end_ "<C:time-range"
          (by decide) (by decide) (by decide) (by decide)]
    decide
  · show strCount (getrange_tasks_request_head
        ++ time_range_element s.start s.end_
        ++ getrange_request_foot) "getetag" = 0
    rw [strCount_range_body getrange_tasks_request_head
          getrange_request_foot s.start s.end_ "getetag"
          (by decide) (by decide) (by decide) (by decide)]
    decide
  · show strCount (getrange_tasks_request_head
        ++ time_range_element s.start s.end_
        ++ getrange_request_foot) "<C:calendar-data/>" = 1
    rw [strCount_range_body getrange_tasks_request_head
          getrange_request_foot s.start s.end_ "<C:calendar-data/>"
          (by decide) (by decide) (by decide) (by decide)]
    decide

theorem claim3_range_request_body_witness :
    DateTime.le s0.start s0.end_ ∧
    r0range.body = getrange_request_body s0 ∧
    r0taskrange.body = getrange_tasks_request_body s0 ∧
    strCount (getrange_request_body s0) "<C:time-range" = 1 ∧
    strCount (getrange_request_body s0) "getetag" = 0 :=
  ⟨by decide,
   (claim3_range_request_body parse0 tOk s0 r0range (by decide)).1 rfl,
   (claim3_range_request_body parse0 tOk s0 r0taskrange
      (by decide)).2.1 rfl,
   (claim3_range_request_body parse0 tOk s0 r0range
      (by decide)).2.2.2.2.1,
   (claim3_range_request_body parse0 tOk s0 r0range
      (by decide)).2.2.2.2.2.1⟩

/-- C6: each report operation issues its request with method REPORT and
with FOLLOWLOCATION, UNRESTRICTED_AUTH and POSTREDIR(POST_ALL) set;
under the modelled redirect-following exchange, a 3xx answer re-issues
the identical request (same method REPORT, identical body) against the
Location target with the credentials preserved, and a server that
always redirects exhausts the bounded hop count into a transport
failure. -/
theorem claim6_redirect_fidelity
    (parse : String → String → String → String) (t : Transport)
    (s : caldav_settings) (r : HttpRequest)
    (server : String → HttpRequest → Bool → HttpResponse)
    (hr : (caldav_getall parse t s).request = some r ∨
          (caldav_getrange parse t s).request = some r ∨
          (caldav_tasks_getall parse t s).request = some r ∨
          (caldav_tasks_getrange parse t s).request = some r) :
    (r.method = "REPORT" ∧ r.followlocation = true ∧
      r.unrestricted_auth = true ∧ r.postredir_all = true) ∧
    (∀ fuel url auth hops,
      300 ≤ (server url r auth).status →
      (server url r auth).status < 400 →
      redirect_exchange server (fuel + 1) url r auth hops
        = redirect_exchange server fuel (server url r auth).location
            r auth (hops ++ [(url, r, auth)])) ∧
    ((∀ u q a, 300 ≤ (server u q a).status
          ∧ (server u q a).status < 400) →
      ∀ fuel url auth hops, ∃ msg,
        redirect_exchange server fuel url r auth hops
          = Except.error msg) := by
  have hflags : r.method = "REPORT" ∧ r.followlocation = true ∧
      r.unrestricted_auth = true ∧ r.postredir_all = true := by
    rcases hr with h | h | h | h
    · rw [caldav_getall_request_eq parse t s r h]
      exact ⟨rfl, rfl, rfl, rfl⟩
    · rw [caldav_getrange_request_eq parse t s r h]
      exact ⟨rfl, rfl, rfl, rfl⟩
    · rw [caldav_tasks_getall_request_eq parse t s r h]
      exact ⟨rfl, rfl, rfl, rfl⟩
    · rw [caldav_tasks_getrange_request_eq parse t s r h]
      exact ⟨rfl, rfl, rfl, rfl⟩
  obtain ⟨hm, hf, hu, hp⟩ := hflags
  refine ⟨⟨hm, hf, hu, hp⟩, ?_, ?_⟩
  · intro fuel url auth hops h300 h400
    rw [redirect_exchange]
    rw [if_pos (by exact ⟨⟨h300, h400⟩, hf⟩)]
    simp [hp, hu]
  · intro hall fuel
    induction fuel with
    | zero =>
      intro url auth hops
      exact ⟨"maximum redirect count exhausted", rfl⟩
    | succ n ih =>
      intro url auth hops
      rw [redirect_exchange]
      rw [if_pos (by exact ⟨hall url r auth, hf⟩)]
      simp only [hp, hu, if_true, Bool.and_true]
      exact ih (server url r auth).location auth
        (hops ++ [(url, r, auth)])

theorem claim6_redirect_fidelity_witness :
    (r0all.method = "REPORT" ∧ r0all.followlocation = true ∧
      r0all.unrestricted_auth = true ∧ r0all.postredir_all = true) ∧
    redirect_exchange server0 1 "orig" r0all true []
      = redirect_exchange server0 0 (server0 "orig" r0all true).location
          r0all true [("orig", r0all, true)] ∧
    (∃ msg, redirect_exchange serverLoop 5 "start" r0all true []
        = Except.error msg) :=
  ⟨(claim6_redirect_fidelity parse0 tOk s0 r0all server0 (Or.inl rfl)).1,
   (claim6_redirect_fidelity parse0 tOk s0 r0all server0
      (Or.inl rfl)).2.1 0 "orig" true [] (by decide) (by decide),
   (claim6_redirect_fidelity parse0 tOk s0 r0all serverLoop
      (Or.inl rfl)).2.2 (fun u q a => ⟨by norm_num [serverLoop], by norm_num [serverLoop]⟩)
      5 "start" true []⟩

end Caldav
